import Mathlib

/-!
Verification of the DataDog-to-OTEL Cloudflare Worker proxy
(`node-dd-to-otel/worker/src/index.js`).

The worker's pure logic is embedded shallowly:

* JSON values (`Json`) model the result of `JSON.parse`; JSON numbers are
  modelled as exact integers (the payloads under study carry integer fields).
* JavaScript truthiness, property access (which throws on `null` receivers),
  `Object.keys` enumeration and `JSON.stringify` are modelled explicitly.
* `new Date(x).getTime()` is modelled by an abstract `parseDate : Json → Option Int`
  (`none` standing for `NaN`); `Date.now()` by a fixed capture instant.
* Network effects are inputs: a `NetResult` says what a `fetch` would do
  (complete with a status and body, or throw).  Handlers are then pure
  functions of the request data and these environment inputs.
-/

namespace DDProxy

/-- A JavaScript/JSON value as produced by `JSON.parse`. -/
inductive Json where
  | null
  | bool (b : Bool)
  | num (n : Int)
  | str (s : String)
  | arr (elems : List Json)
  | obj (members : List (String × Json))
deriving Repr

/-- JavaScript truthiness of a parsed JSON value (`NaN`/`undefined` cannot
arise from `JSON.parse`). -/
def Json.truthy : Json → Bool
  | .null => false
  | .bool b => b
  | .num n => n != 0
  | .str s => s != ""
  | .arr _ => true
  | .obj _ => true

/-- First binding of a key in a JS object's member list (JS objects have
unique keys after `JSON.parse`, so first = only). -/
def lookupJson (kvs : List (String × Json)) (k : String) : Option Json :=
  (kvs.find? (fun kv => kv.1 = k)).map (·.2)

/-- The error message of a JS `TypeError` raised by reading a property of
`null`. -/
def nullPropError (k : String) : String :=
  "Cannot read properties of null (reading " ++ k ++ ")"

/-- JS property read `receiver[k]`: throws a `TypeError` on a `null`
receiver, looks keys up in objects, exposes `length` on strings and arrays,
and yields `undefined` (`none`) everywhere else. -/
def Json.getField : Json → String → Except String (Option Json)
  | .null, k => .error (nullPropError k)
  | .obj kvs, k => .ok (lookupJson kvs k)
  | .str s, k => .ok (if k = "length" then some (.num s.length) else none)
  | .arr xs, k => .ok (if k = "length" then some (.num xs.length) else none)
  | _, _ => .ok none

mutual
/-- `JSON.stringify` on parsed values (string escaping is modelled as the
identity: the payloads under study contain no characters needing escapes). -/
def jsonStringify : Json → String
  | .null => "null"
  | .bool b => if b then "true" else "false"
  | .num n => toString n
  | .str s => "\"" ++ s ++ "\""
  | .arr xs => "[" ++ String.intercalate "," (jsonStringifyList xs) ++ "]"
  | .obj kvs => "\x7b" ++ String.intercalate "," (jsonStringifyObj kvs) ++ "\x7d"

def jsonStringifyList : List Json → List String
  | [] => []
  | x :: xs => jsonStringify x :: jsonStringifyList xs

def jsonStringifyObj : List (String × Json) → List String
  | [] => []
  | (k, v) :: kvs => ("\"" ++ k ++ "\":" ++ jsonStringify v) :: jsonStringifyObj kvs
end

mutual
/-- JS `String(x)` coercion for parsed values (arrays join their elements
with commas, `null` elements rendering as the empty string; objects render
as `[object Object]`). -/
def jsToString : Json → String
  | .null => "null"
  | .bool b => if b then "true" else "false"
  | .num n => toString n
  | .str s => s
  | .arr xs => String.intercalate "," (jsToStringArr xs)
  | .obj _ => "[object Object]"

def jsToStringElem : Json → String
  | .null => ""
  | j => jsToString j

def jsToStringArr : List Json → List String
  | [] => []
  | x :: xs => jsToStringElem x :: jsToStringArr xs
end

/-- The property key a JS value coerces to when used as an index
(`undefined` for an absent value). -/
def jsPropKey : Option Json → String
  | none => "undefined"
  | some j => jsToString j

/-- One OTEL severity pair, as in the worker's `severityMap` entries. -/
structure Severity where
  number : Nat
  text : String
deriving Repr, DecidableEq

/-- The worker's `severityMap` object literal. -/
def severityMap : List (String × Severity) :=
  [("debug", ⟨5, "DEBUG"⟩), ("info", ⟨9, "INFO"⟩),
   ("warn", ⟨13, "WARN"⟩), ("error", ⟨17, "ERROR"⟩)]

/-- `severityMap[ddLog.level] || severityMap['info']` (map entries are
objects, hence truthy, so `||` is a plain default). -/
def severityOf (level : Option Json) : Severity :=
  ((severityMap.find? (fun e => e.1 = jsPropKey level)).map (·.2)).getD ⟨9, "INFO"⟩

/-- The worker's `timeUnixNano` computation: if `ddLog.timestamp` is truthy,
`(new Date(ts).getTime() * 1000000).toString()` (the string `"NaN"` when the
date is unparseable), else `(Date.now() * 1000000).toString()`. -/
def timeUnixNanoOf (parseDate : Json → Option Int) (captureMs : Int)
    (ts : Option Json) : String :=
  match ts with
  | some v =>
    if v.truthy then
      match parseDate v with
      | some ms => toString (ms * 1000000)
      | none => "NaN"
    else toString (captureMs * 1000000)
  | none => toString (captureMs * 1000000)

/-- An OTEL attribute value as the worker builds them: a `stringValue`
wrapper (whose payload is whatever JS value was supplied), a `doubleValue`
or a `boolValue`. -/
inductive AttrValue where
  | stringValue (v : Json)
  | doubleValue (n : Int)
  | boolValue (b : Bool)
deriving Repr

/-- One OTEL attribute `{ key, value }`. -/
structure OtelAttr where
  key : String
  value : AttrValue
deriving Repr

/-- One OTEL log record as assembled by the worker. -/
structure OtelLogRecord where
  timeUnixNano : String
  severityNumber : Nat
  severityText : String
  body : Json
  attributes : List OtelAttr
deriving Repr

/-- The OTEL envelope: `resourceLogs[0]` with its fixed resource attributes
and the single scope block wrapping the converted records. -/
structure OtelPayload where
  resourceAttributes : List OtelAttr
  scopeName : String
  scopeVersion : String
  logRecords : List OtelLogRecord
deriving Repr

/-- The per-request environment of the converter: the JS date parser
(`new Date(·).getTime()`, `none` = `NaN`), the capture instant `Date.now()`
in milliseconds, its ISO rendering, and the request id. -/
structure ConvCtx where
  parseDate : Json → Option Int
  captureMs : Int
  nowIso : String
  requestId : String

/-- The worker's core field list
`['message', 'timestamp', 'level', 'service', 'env', 'version']`. -/
def coreFields : List String :=
  ["message", "timestamp", "level", "service", "env", "version"]

/-- The typed attribute the context loop emits for one non-core field:
strings, numbers and booleans keep their type; everything else is
JSON-stringified into a string attribute. -/
def ddContextAttr (k : String) (v : Json) : OtelAttr :=
  match v with
  | .str s => ⟨"dd." ++ k, .stringValue (.str s)⟩
  | .num n => ⟨"dd." ++ k, .doubleValue n⟩
  | .bool b => ⟨"dd." ++ k, .boolValue b⟩
  | v => ⟨"dd." ++ k, .stringValue (.str (jsonStringify v))⟩

/-- `Object.keys(x)` paired with `x[key]`: object members in order; for an
array, its elements under their index keys (JSON-parsed arrays are dense and
`length` is non-enumerable); for a string, its characters under their index
keys; empty for the remaining primitives. -/
def Json.contextEntries : Json → List (String × Json)
  | .obj kvs => kvs
  | .arr xs => (xs.enum).map (fun p => (toString p.1, p.2))
  | .str s => (s.toList.enum).map (fun p => (toString p.1, .str (String.singleton p.2)))
  | _ => []

/-- The optional attribute pushed for one of the `service`/`env`/`version`
fields: emitted only when the field is truthy. -/
def coreAttrOf (key : String) (f : Option Json) : List OtelAttr :=
  match f with
  | some v => if v.truthy then [⟨key, .stringValue v⟩] else []
  | none => []

/-- The three proxy-metadata attributes appended last to every record. -/
def proxyAttrs (ctx : ConvCtx) : List OtelAttr :=
  [⟨"proxy.source", .stringValue (.str "dd-proxy-worker")⟩,
   ⟨"proxy.request_id", .stringValue (.str ctx.requestId)⟩,
   ⟨"proxy.timestamp", .stringValue (.str ctx.nowIso)⟩]

/-- Conversion of one DataDog log to one OTEL record (the body of the
worker's `ddLogs.map`).  Property reads on a `null` event throw, which
surfaces as an `Except.error` aborting the whole map. -/
def convertLog (ctx : ConvCtx) (ddLog : Json) : Except String OtelLogRecord :=
  match ddLog.getField "level" with
  | .error e => .error e
  | .ok levelF =>
    match ddLog.getField "timestamp" with
    | .error e => .error e
    | .ok tsF =>
      match ddLog.getField "message" with
      | .error e => .error e
      | .ok msgF =>
        match ddLog.getField "service" with
        | .error e => .error e
        | .ok svcF =>
          match ddLog.getField "env" with
          | .error e => .error e
          | .ok envF =>
            match ddLog.getField "version" with
            | .error e => .error e
            | .ok verF =>
              let severity := severityOf levelF
              let body : Json :=
                match msgF with
                | some m => if m.truthy then m else .str (jsonStringify ddLog)
                | none => .str (jsonStringify ddLog)
              let ctxAttrs :=
                (ddLog.contextEntries.filter
                  (fun kv => !(coreFields.contains kv.1))).map
                  (fun kv => ddContextAttr kv.1 kv.2)
              .ok
                { timeUnixNano := timeUnixNanoOf ctx.parseDate ctx.captureMs tsF
                  severityNumber := severity.number
                  severityText := severity.text
                  body := body
                  attributes :=
                    coreAttrOf "service.name" svcF ++
                    coreAttrOf "deployment.environment" envF ++
                    coreAttrOf "service.version" verF ++
                    ctxAttrs ++ proxyAttrs ctx }

/-- The single event the catch branch synthesizes when `JSON.parse` throws:
`{ message: rawBody, timestamp: Date.now(), level: 'info' }`. -/
def synthEvent (raw : String) (captureMs : Int) : Json :=
  .obj [("message", .str raw), ("timestamp", .num captureMs), ("level", .str "info")]

/-- `ddLogs` as the worker computes it from the raw body and the result of
`JSON.parse` (`none` = parse threw): `parsed.logs || [parsed]` inside the
`try` (so reading `.logs` off `null` also lands in the catch), with the
synthesized single event as the catch result. -/
def ddLogsOf (raw : String) (parsed : Option Json) (captureMs : Int) : Json :=
  match parsed with
  | none => .arr [synthEvent raw captureMs]
  | some p =>
    match p.getField "logs" with
    | .error _ => .arr [synthEvent raw captureMs]
    | .ok flog =>
      match flog with
      | some v => if v.truthy then v else .arr [p]
      | none => .arr [p]

/-- JS `Array.prototype.map` with a throwing callback: the first exception
aborts the whole map. -/
def mapMExcept (f : α → Except String β) : List α → Except String (List β)
  | [] => .ok []
  | x :: xs =>
    match f x with
    | .error e => .error e
    | .ok y =>
      match mapMExcept f xs with
      | .error e => .error e
      | .ok ys => .ok (y :: ys)

/-- The fixed resource attribute block of the envelope. -/
def resourceAttrsConst : List OtelAttr :=
  [⟨"service.name", .stringValue (.str "browser-extension")⟩,
   ⟨"telemetry.sdk.name", .stringValue (.str "datadog-browser-sdk")⟩,
   ⟨"telemetry.sdk.version", .stringValue (.str "5.x")⟩]

/-- Wrapping converted records into the complete OTEL payload. -/
def mkPayload (logs : List OtelLogRecord) : OtelPayload :=
  { resourceAttributes := resourceAttrsConst
    scopeName := "dd-proxy-worker"
    scopeVersion := "1.0.0"
    logRecords := logs }

/-- `convertDataDogToOTEL`: extract `ddLogs`, map each log (a non-array
`ddLogs` value makes `.map` throw a `TypeError`), wrap in the envelope. -/
def convertDataDogToOTEL (ctx : ConvCtx) (raw : String) (parsed : Option Json) :
    Except String OtelPayload :=
  match ddLogsOf raw parsed ctx.captureMs with
  | .arr ddLogs =>
    match mapMExcept (convertLog ctx) ddLogs with
    | .error e => .error e
    | .ok otelLogs => .ok (mkPayload otelLogs)
  | _ => .error "ddLogs.map is not a function"

/-- What one `fetch` would do: complete with an HTTP status and response
body, or throw (network error) with a message. -/
inductive NetResult where
  | completed (status : Nat) (respBody : String)
  | threw (msg : String)
deriving Repr, DecidableEq

/-- `Response.ok`: status in the 2xx range. -/
def responseOk (status : Nat) : Bool := 200 ≤ status && status < 300

/-- The result object of one outbound call, mirroring the JS literals field
by field; absent JS fields are `none`. -/
structure SinkOutcome where
  service : String
  status : Option Nat
  success : Bool
  responseBody : Option String
  error : Option String
  format : Option String
deriving Repr, DecidableEq

/-- The DataDog leg of the fan-out: the `fetch(...).then(...).catch(...)`
chain of `handleDataDogProxy`, which always resolves to a `SinkOutcome`. -/
def ddFetchTask (net : NetResult) : SinkOutcome :=
  match net with
  | .completed st respBody =>
    { service := "datadog", status := some st, success := responseOk st
      responseBody := some respBody, error := none, format := none }
  | .threw msg =>
    { service := "datadog", status := some 0, success := false
      responseBody := none, error := some msg, format := none }

/-- `forwardToFiretiger`: convert, then POST; any throw (conversion or
network) is caught and returned as a failure outcome.  Note the success
outcome records no response body and the catch outcome records no status. -/
def forwardToFiretiger (ctx : ConvCtx) (raw : String) (parsed : Option Json)
    (net : NetResult) : SinkOutcome :=
  match convertDataDogToOTEL ctx raw parsed with
  | .error e =>
    { service := "firetiger", status := none, success := false
      responseBody := none, error := some e, format := some "otel-http" }
  | .ok _ =>
    match net with
    | .completed st _respBody =>
      { service := "firetiger", status := some st, success := responseOk st
        responseBody := none, error := none, format := some "otel-http" }
    | .threw msg =>
      { service := "firetiger", status := none, success := false
        responseBody := none, error := some msg, format := some "otel-http" }

/-- The worker's `DD_INTAKE_ORIGINS` table. -/
def ddIntakeOrigins (site : String) : Option String :=
  (([("datadoghq.com", "https://browser-intake-datadoghq.com"),
     ("us3.datadoghq.com", "https://browser-intake-us3-datadoghq.com"),
     ("us5.datadoghq.com", "https://browser-intake-us5-datadoghq.com"),
     ("datadoghq.eu", "https://browser-intake-datadoghq.eu"),
     ("ap1.datadoghq.com", "https://browser-intake-ap1-datadoghq.com"),
     ("ap2.datadoghq.com", "https://browser-intake-ap2-datadoghq.com"),
     ("ddog-gov.com", "https://browser-intake-ddog-gov.com")]
    : List (String × String)).find? (fun kv => kv.1 = site)).map (·.2)

/-- `extractDataDogSite`: the `site` query parameter if truthy, else the
`X-Datadog-Site` header if truthy, else the fixed default. -/
def extractDataDogSite (siteParam siteHeader : Option String) : String :=
  match siteParam with
  | some s =>
    if s != "" then s
    else
      match siteHeader with
      | some h => if h != "" then h else "us5.datadoghq.com"
      | none => "us5.datadoghq.com"
  | none =>
    match siteHeader with
    | some h => if h != "" then h else "us5.datadoghq.com"
    | none => "us5.datadoghq.com"

/-- The worker's environment bindings (Cloudflare `env` vars; `none` =
unset). -/
structure WorkerEnv where
  dd_forward_enabled : Option String
  firetiger_endpoint : Option String
  firetiger_api_key : Option String

/-- JS truthiness of an env string. -/
def envTruthy : Option String → Bool
  | some s => s != ""
  | none => false

/-- `env.FIRETIGER_ENDPOINT && env.FIRETIGER_API_KEY`. -/
def firetigerConfigured (env : WorkerEnv) : Bool :=
  envTruthy env.firetiger_endpoint && envTruthy env.firetiger_api_key

/-- An HTTP response as returned to the caller. -/
structure HttpResponse where
  status : Nat
  body : String
  headers : List (String × String)
deriving Repr, DecidableEq

/-- `getCORSHeaders()`. -/
def corsHeaders : List (String × String) :=
  [("Access-Control-Allow-Origin", "*"),
   ("Access-Control-Allow-Methods", "GET, POST, PUT, DELETE, OPTIONS"),
   ("Access-Control-Allow-Headers", "Content-Type, Authorization, X-Requested-With"),
   ("Access-Control-Max-Age", "86400")]

/-- An outbound request the handler issues. -/
structure OutboundRequest where
  method : String
  url : String
  reqBody : String
deriving Repr, DecidableEq

/-- The primary outbound request: `fetch(datadogUrl, { method: 'POST', ...,
body })`. -/
def buildDDRequest (intakeOrigin decodedForward reqBody : String) : OutboundRequest :=
  ⟨"POST", intakeOrigin ++ decodedForward, reqBody⟩

/-- The data of one inbound proxy request after the platform parsed it:
the `decodeURIComponent(ddforward)` result (`none` = `URIError` thrown),
the body text, the `JSON.parse(body)` result (`none` = parse throws), and
the site query parameter / header. -/
structure HandlerInput where
  decodedForward : Option String
  reqBody : String
  parsed : Option Json
  siteParam : Option String
  siteHeader : Option String

/-- What each of the two sinks' `fetch` would do on this request. -/
structure SinkBehavior where
  ddNet : NetResult
  ftNet : NetResult
deriving Repr, DecidableEq

/-- Everything `handleDataDogProxy` produces: the caller-visible response,
the primary request it issued (`none` = primary never attempted), and the
secondary outcome (`none` = secondary never attempted). -/
structure HandlerResult where
  response : HttpResponse
  ddRequest : Option OutboundRequest
  ftOutcome : Option SinkOutcome
deriving Repr, DecidableEq

/-- The message of the final `throw` when the primary sink failed:
`` `DataDog request failed: ${ddResult.value?.status || ddResult.reason}` ``
(a 0 status is falsy, so it falls through to the undefined `reason`). -/
def ddFailMessage (o : SinkOutcome) : String :=
  "DataDog request failed: " ++
    (match o.status with
     | some st => if st = 0 then "undefined" else toString st
     | none => "undefined")

/-- `handleDataDogProxy` as a pure function of the request data, the
converter context and the sinks' network behavior.  The whole body sits in
a `try`: a `URIError` from decoding `ddforward`, or the unsupported-site
`throw`, or the primary-failure `throw` all land in the catch, which
returns the error message with a 500. -/
def handleDataDogProxy (env : WorkerEnv) (inp : HandlerInput) (ctx : ConvCtx)
    (beh : SinkBehavior) : HandlerResult :=
  match inp.decodedForward with
  | none =>
    { response := ⟨500, "URI malformed", corsHeaders⟩
      ddRequest := none, ftOutcome := none }
  | some dec =>
    if env.dd_forward_enabled = some "false" then
      { response := ⟨200, "OK", corsHeaders⟩
        ddRequest := none, ftOutcome := none }
    else
      let site0 := extractDataDogSite inp.siteParam inp.siteHeader
      let site := if site0 = "" then "us5.datadoghq.com" else site0
      match ddIntakeOrigins site with
      | none =>
        { response := ⟨500, "Unsupported DataDog site: " ++ site, corsHeaders⟩
          ddRequest := none, ftOutcome := none }
      | some intakeOrigin =>
        let ddResult := ddFetchTask beh.ddNet
        let ftResult :=
          if firetigerConfigured env then
            some (forwardToFiretiger ctx inp.reqBody inp.parsed beh.ftNet)
          else none
        let response :=
          if ddResult.success then
            ⟨ddResult.status.getD 0, ddResult.responseBody.getD "", corsHeaders⟩
          else
            (⟨500, ddFailMessage ddResult, corsHeaders⟩ : HttpResponse)
        { response := response
          ddRequest := some (buildDDRequest intakeOrigin dec inp.reqBody)
          ftOutcome := ftResult }

/-- The top-level `fetch` handler's routing decision. -/
inductive Route where
  | corsPreflight
  | health
  | proxy (ddforward : String)
  | notFound
deriving Repr, DecidableEq

/-- JS truthiness of `url.searchParams.get(...)` (null or empty = falsy). -/
def jsStrTruthy : Option String → Bool
  | some s => s != ""
  | none => false

/-- JS `String.prototype.startsWith`, modelled over the character list. -/
def strStartsWith (s pre : String) : Bool :=
  pre.toList.isPrefixOf s.toList

/-- The routing chain of the exported `fetch` entry point: OPTIONS, then
`/health`, then the `ddforward`+POST rule, then the legacy path prefixes,
then 404. -/
def routeRequest (method pathname : String) (ddforwardParam : Option String)
    (search : String) : Route :=
  if method = "OPTIONS" then .corsPreflight
  else if pathname = "/health" then .health
  else if jsStrTruthy ddforwardParam && method == "POST" then
    .proxy (ddforwardParam.getD "")
  else if strStartsWith pathname "/api/v2/" || strStartsWith pathname "/v1/input/" then
    .proxy (pathname ++ search)
  else .notFound

/-! ### Specification-side definitions (for refinement comparisons)

These follow the spec's / claims' wording, to be compared with the
definitions translated from the source. -/

/-- The Source Event sequence as claim C5 words it: a JSON object with an
array field `logs` yields that array; any other parsed JSON value is a
single Source Event; a parse failure synthesizes the raw-text event. -/
def ddLogsClaimC5 (raw : String) (parsed : Option Json) (captureMs : Int) : Json :=
  match parsed with
  | none => .arr [synthEvent raw captureMs]
  | some (.obj kvs) =>
    match lookupJson kvs "logs" with
    | some (.arr xs) => .arr xs
    | _ => .arr [.obj kvs]
  | some v => .arr [v]

/-- The Source Event sequence as amended: a parsed `null` also lands in the
synthesized-event branch (reading `.logs` off `null` throws inside the
`try`), and an object's truthy `logs` field is used as the sequence whether
or not it is an array (a non-array making the subsequent map throw). -/
def ddLogsAmendedC5 (raw : String) (parsed : Option Json) (captureMs : Int) : Json :=
  match parsed with
  | none => .arr [synthEvent raw captureMs]
  | some Json.null => .arr [synthEvent raw captureMs]
  | some (.obj kvs) =>
    match lookupJson kvs "logs" with
    | some v => if v.truthy then v else .arr [.obj kvs]
    | none => .arr [.obj kvs]
  | some v => .arr [v]

/-- The record timestamp as claim C6 words it: the converted value when a
timestamp field is present and parseable, else the capture time. -/
def timeUnixNanoClaimC6 (parseDate : Json → Option Int) (captureMs : Int)
    (ts : Option Json) : String :=
  match ts with
  | some v =>
    match parseDate v with
    | some ms => toString (ms * 1000000)
    | none => toString (captureMs * 1000000)
  | none => toString (captureMs * 1000000)

/-- The record timestamp as amended: only a truthy timestamp field is
converted, and an unparseable one yields the literal string `"NaN"` rather
than the capture time. -/
def timeUnixNanoAmendedC6 (parseDate : Json → Option Int) (captureMs : Int)
    (ts : Option Json) : String :=
  match ts with
  | some v =>
    if v.truthy then
      match parseDate v with
      | some ms => toString (ms * 1000000)
      | none => "NaN"
    else toString (captureMs * 1000000)
  | none => toString (captureMs * 1000000)

/-- The site resolution as claim C7 words it: the query parameter if
present, else the header if present, else the default. -/
def extractSiteClaimC7 (siteParam siteHeader : Option String) : String :=
  match siteParam with
  | some s => s
  | none =>
    match siteHeader with
    | some h => h
    | none => "us5.datadoghq.com"

/-- The site resolution as amended: only a non-empty query parameter, else a
non-empty header, else the default. -/
def extractSiteAmendedC7 (siteParam siteHeader : Option String) : String :=
  match siteParam with
  | some s =>
    if s = "" then
      match siteHeader with
      | some h => if h = "" then "us5.datadoghq.com" else h
      | none => "us5.datadoghq.com"
    else s
  | none =>
    match siteHeader with
    | some h => if h = "" then "us5.datadoghq.com" else h
    | none => "us5.datadoghq.com"

/-! ### Concrete fixtures used by witnesses and counterexamples -/

/-- A concrete date parser consistent with `new Date(·).getTime()`:
millisecond numbers parse to themselves, and the string `"zzz"` (like any
garbage text) yields an invalid date (`NaN`). -/
def parseDateW : Json → Option Int
  | .num n => some n
  | _ => none

/-- A concrete converter context. -/
def ctxW : ConvCtx := ⟨parseDateW, 1000, "2025-01-01T00:00:00.000Z", "reqid00"⟩

/-- An environment with both sinks enabled. -/
def envPlain : WorkerEnv := ⟨none, some "https://ft.example/v1/logs", some "apikey"⟩

/-- An environment with the kill switch set to disabled. -/
def envKill : WorkerEnv := ⟨some "false", some "https://ft.example/v1/logs", some "apikey"⟩

/-- A proxy request whose `ddforward` parameter failed to decode
(`decodeURIComponent` threw a `URIError`, e.g. for the raw value `%zz`). -/
def inpBadURI : HandlerInput := ⟨none, "body", none, none, none⟩

/-- A plain well-formed proxy request. -/
def inpGood : HandlerInput := ⟨some "/api/v2/logs?ddsource=browser", "body", none, none, none⟩

/-- A proxy request carrying an empty `site` query parameter (`?site=`) and
a site header. -/
def inpEmptySite : HandlerInput :=
  ⟨some "/api/v2/logs", "body", none, some "", some "datadoghq.com"⟩

/-- A proxy request with an unresolvable `site` query parameter. -/
def inpBadSite : HandlerInput :=
  ⟨some "/v1/input/abc", "body", none, some "unknown.example.com", none⟩

/-- A benign network behavior for both sinks. -/
def behW : SinkBehavior := ⟨.completed 202 "{}", .completed 200 ""⟩

/-- The response (and the primary request) of the proxy handler do not
depend on the secondary sink's network behavior. -/
lemma handle_ft_irrelevant (env : WorkerEnv) (inp : HandlerInput) (ctx : ConvCtx)
    (ddNet ft₁ ft₂ : NetResult) :
    (handleDataDogProxy env inp ctx ⟨ddNet, ft₁⟩).response =
      (handleDataDogProxy env inp ctx ⟨ddNet, ft₂⟩).response ∧
    (handleDataDogProxy env inp ctx ⟨ddNet, ft₁⟩).ddRequest =
      (handleDataDogProxy env inp ctx ⟨ddNet, ft₂⟩).ddRequest := by
  unfold handleDataDogProxy
  cases inp.decodedForward with
  | none => exact ⟨rfl, rfl⟩
  | some dec =>
    by_cases hk : env.dd_forward_enabled = some "false"
    · simp [hk]
    · simp only [hk, if_false]
      cases ddIntakeOrigins
          (if extractDataDogSite inp.siteParam inp.siteHeader = ""
           then "us5.datadoghq.com"
           else extractDataDogSite inp.siteParam inp.siteHeader) with
      | none => exact ⟨rfl, rfl⟩
      | some origin => exact ⟨rfl, rfl⟩

/-- C1: with a secondary sink configured, the caller-visible response (and
the primary request issued) are identical whatever the secondary sink's
call does — succeed, fail with an HTTP error status, or throw a network
exception; and the dispatcher is a total function, so no secondary failure
escapes it as an error. -/
theorem c1_secondary_sink_isolation (env : WorkerEnv) (inp : HandlerInput)
    (ctx : ConvCtx) (ddNet ft₁ ft₂ : NetResult)
    (hcfg : firetigerConfigured env = true) :
    (handleDataDogProxy env inp ctx ⟨ddNet, ft₁⟩).response =
      (handleDataDogProxy env inp ctx ⟨ddNet, ft₂⟩).response ∧
    (handleDataDogProxy env inp ctx ⟨ddNet, ft₁⟩).ddRequest =
      (handleDataDogProxy env inp ctx ⟨ddNet, ft₂⟩).ddRequest :=
  handle_ft_irrelevant env inp ctx ddNet ft₁ ft₂

/-- C1 witness: on a concrete request with the secondary sink configured,
the response is the same whether the secondary call succeeds with 200,
fails with HTTP 503, or throws a network error. -/
theorem c1_secondary_sink_isolation_witness :
    firetigerConfigured envPlain = true ∧
    (handleDataDogProxy envPlain inpGood ctxW ⟨.completed 202 "{}", .completed 200 "ok"⟩).response =
      (handleDataDogProxy envPlain inpGood ctxW ⟨.completed 202 "{}", .completed 503 "overloaded"⟩).response ∧
    (handleDataDogProxy envPlain inpGood ctxW ⟨.completed 202 "{}", .completed 200 "ok"⟩).response =
      (handleDataDogProxy envPlain inpGood ctxW ⟨.completed 202 "{}", .threw "ECONNREFUSED"⟩).response :=
  ⟨rfl,
   (c1_secondary_sink_isolation envPlain inpGood ctxW (.completed 202 "{}")
     (.completed 200 "ok") (.completed 503 "overloaded") rfl).1,
   (c1_secondary_sink_isolation envPlain inpGood ctxW (.completed 202 "{}")
     (.completed 200 "ok") (.threw "ECONNREFUSED") rfl).1⟩

/-- C4 counterexample: a proxy request whose `ddforward` parameter fails to
decode (e.g. the raw value `%zz`) reaches the catch before the kill-switch
check, so even with `DD_FORWARD_ENABLED = 'false'` the handler answers 500
`URI malformed`, not 200 `OK`. -/
theorem c4_kill_switch_counterexample :
    envKill.dd_forward_enabled = some "false" ∧
    (handleDataDogProxy envKill inpBadURI ctxW behW).response =
      ⟨500, "URI malformed", corsHeaders⟩ ∧
    (handleDataDogProxy envKill inpBadURI ctxW behW).response ≠
      ⟨200, "OK", corsHeaders⟩ := by
  refine ⟨rfl, rfl, ?_⟩
  decide

/-- C4 as amended: on every proxy request whose `ddforward` parameter
decodes successfully, a kill switch set to `'false'` makes the handler
answer exactly 200 `OK` (with the CORS headers) and attempt neither the
primary nor the secondary outbound call. -/
theorem c4_kill_switch_amended (env : WorkerEnv) (inp : HandlerInput)
    (ctx : ConvCtx) (beh : SinkBehavior) (d : String)
    (hdec : inp.decodedForward = some d)
    (hks : env.dd_forward_enabled = some "false") :
    handleDataDogProxy env inp ctx beh =
      ⟨⟨200, "OK", corsHeaders⟩, none, none⟩ := by
  unfold handleDataDogProxy
  rw [hdec]
  simp [hks]

/-- C4 witness: a concrete well-formed request under the kill switch. -/
theorem c4_kill_switch_amended_witness :
    inpGood.decodedForward = some "/api/v2/logs?ddsource=browser" ∧
    envKill.dd_forward_enabled = some "false" ∧
    handleDataDogProxy envKill inpGood ctxW behW =
      ⟨⟨200, "OK", corsHeaders⟩, none, none⟩ :=
  ⟨rfl, rfl,
   c4_kill_switch_amended envKill inpGood ctxW behW "/api/v2/logs?ddsource=browser" rfl rfl⟩

/-- C3: in the conversion of an object event, every field outside the core
set appears in the record's attributes under `dd.` + name with the typed
value the claim describes (string/number/boolean kept, anything else
JSON-stringified), and the record's attribute list ends with the three
proxy-metadata attributes. -/
theorem c3_attribute_totality (ctx : ConvCtx) (kvs : List (String × Json))
    (k : String) (v : Json)
    (hmem : (k, v) ∈ kvs) (hcore : k ∉ coreFields) :
    ∃ rec, convertLog ctx (.obj kvs) = .ok rec ∧
      (match v with
       | .str s => (⟨"dd." ++ k, .stringValue (.str s)⟩ : OtelAttr)
       | .num n => ⟨"dd." ++ k, .doubleValue n⟩
       | .bool b => ⟨"dd." ++ k, .boolValue b⟩
       | v => ⟨"dd." ++ k, .stringValue (.str (jsonStringify v))⟩) ∈ rec.attributes ∧
      ∃ pre, rec.attributes = pre ++ proxyAttrs ctx := by
  refine ⟨_, rfl, ?_, ?_⟩
  · have hty : (match v with
       | .str s => (⟨"dd." ++ k, .stringValue (.str s)⟩ : OtelAttr)
       | .num n => ⟨"dd." ++ k, .doubleValue n⟩
       | .bool b => ⟨"dd." ++ k, .boolValue b⟩
       | v => ⟨"dd." ++ k, .stringValue (.str (jsonStringify v))⟩) = ddContextAttr k v := by
      cases v <;> rfl
    rw [hty]
    have hfilter : (k, v) ∈ kvs.filter (fun kv => !(coreFields.contains kv.1)) := by
      refine List.mem_filter.mpr ⟨hmem, ?_⟩
      simpa using hcore
    have hmap : ddContextAttr k v ∈
        ((Json.obj kvs).contextEntries.filter
          (fun kv => !(coreFields.contains kv.1))).map
          (fun kv => ddContextAttr kv.1 kv.2) := by
      exact List.mem_map.mpr ⟨(k, v), hfilter, rfl⟩
    exact List.mem_append_left _ (List.mem_append_right _ hmap)
  · exact ⟨_, rfl⟩

/-- C3 witness: the concrete event's `retryCount` field surfaces as the
numeric attribute `dd.retryCount` and the proxy trio closes the list. -/
theorem c3_attribute_totality_witness :
    ((("retryCount" : String), Json.num 3) ∈
      [(("message" : String), Json.str "m1"), ("level", Json.str "error"),
       ("service", Json.str "svc"), ("retryCount", Json.num 3)]) ∧
    ("retryCount" ∉ coreFields) ∧
    ∃ rec, convertLog ctxW (.obj [("message", Json.str "m1"), ("level", Json.str "error"),
        ("service", Json.str "svc"), ("retryCount", Json.num 3)]) = .ok rec ∧
      (⟨"dd.retryCount", .doubleValue 3⟩ : OtelAttr) ∈ rec.attributes ∧
      ∃ pre, rec.attributes = pre ++ proxyAttrs ctxW := by
  refine ⟨by simp, by decide, ?_⟩
  exact c3_attribute_totality ctxW
    [("message", Json.str "m1"), ("level", Json.str "error"),
     ("service", Json.str "svc"), ("retryCount", Json.num 3)]
    "retryCount" (Json.num 3) (by simp) (by decide)

/-- C5 counterexample: the body `"null"` parses successfully to the JSON
value `null`, which per the claim should become the single Source Event;
the code instead synthesizes the raw-text fallback event (reading `.logs`
off `null` throws into the catch). -/
theorem c5_parse_branches_counterexample :
    ddLogsOf "null" (some Json.null) 1000 = Json.arr [synthEvent "null" 1000] ∧
    ddLogsClaimC5 "null" (some Json.null) 1000 = Json.arr [Json.null] ∧
    ddLogsOf "null" (some Json.null) 1000 ≠ ddLogsClaimC5 "null" (some Json.null) 1000 := by
  refine ⟨rfl, rfl, ?_⟩
  simp [ddLogsOf, ddLogsClaimC5, synthEvent, Json.getField]

/-- C5 as amended: the extraction of the Source Event sequence has these
branches — a parse failure, and also a parsed `null`, synthesize the single
raw-text event (message = raw body, level `info`, timestamp = capture
time); an object whose `logs` field is truthy uses that field's value as
the sequence (whether or not it is an array); any other parsed value is a
single Source Event.  Moreover the synthesized event of an unparseable
non-empty body converts to a record with severity `(9, "INFO")` and body
the raw text. -/
theorem c5_parse_branches_amended :
    (∀ (raw : String) (parsed : Option Json) (cap : Int),
      ddLogsOf raw parsed cap = ddLogsAmendedC5 raw parsed cap) ∧
    (∀ (ctx : ConvCtx) (raw : String), raw ≠ "" →
      ∃ rec, convertDataDogToOTEL ctx raw none = .ok (mkPayload [rec]) ∧
        rec.severityNumber = 9 ∧ rec.severityText = "INFO" ∧
        rec.body = .str raw) := by
  constructor
  · intro raw parsed cap
    match parsed with
    | none => rfl
    | some Json.null => rfl
    | some (.bool b) => rfl
    | some (.num n) => rfl
    | some (.str s) => rfl
    | some (.arr xs) => rfl
    | some (.obj kvs) =>
      cases h : lookupJson kvs "logs" <;>
        simp [ddLogsOf, ddLogsAmendedC5, Json.getField, h]
  · intro ctx raw hraw
    have hbody : (Json.str raw).truthy = true := by
      simpa [Json.truthy] using hraw
    refine ⟨_, rfl, ?_, ?_, ?_⟩
    · show (severityOf (lookupJson
        [("message", Json.str raw), ("timestamp", Json.num ctx.captureMs),
         ("level", Json.str "info")] "level")).number = 9
      simp [severityOf, lookupJson, List.find?, jsPropKey, jsToString, severityMap]
    · show (severityOf (lookupJson
        [("message", Json.str raw), ("timestamp", Json.num ctx.captureMs),
         ("level", Json.str "info")] "level")).text = "INFO"
      simp [severityOf, lookupJson, List.find?, jsPropKey, jsToString, severityMap]
    · show (if (Json.str raw).truthy then Json.str raw
        else Json.str (jsonStringify (synthEvent raw ctx.captureMs))) = Json.str raw
      rw [hbody]
      rfl

/-- C5 witness: the parse-failure branch at the concrete body `not json`
yields one record with severity `(9, "INFO")` and body `not json`, and the
branch equation holds at a concrete input. -/
theorem c5_parse_branches_amended_witness :
    (ddLogsOf "x" (some (.str "x")) 5 = ddLogsAmendedC5 "x" (some (.str "x")) 5) ∧
    ("not json" ≠ "") ∧
    ∃ rec, convertDataDogToOTEL ctxW "not json" none = .ok (mkPayload [rec]) ∧
      rec.severityNumber = 9 ∧ rec.severityText = "INFO" ∧
      rec.body = .str "not json" :=
  ⟨c5_parse_branches_amended.1 "x" (some (.str "x")) 5, by decide,
   c5_parse_branches_amended.2 ctxW "not json" (by decide)⟩

/-- C6 counterexample: an event whose timestamp field is present but
unparseable as a date (`"zzz"`) gets the literal string `"NaN"` as its
record timestamp — not the capture time the claim prescribes, and not an
integer tick count. -/
theorem c6_timestamp_counterexample :
    parseDateW (.str "zzz") = none ∧
    timeUnixNanoOf parseDateW 1000 (some (.str "zzz")) = "NaN" ∧
    timeUnixNanoClaimC6 parseDateW 1000 (some (.str "zzz")) = "1000000000" ∧
    timeUnixNanoOf parseDateW 1000 (some (.str "zzz")) ≠
      timeUnixNanoClaimC6 parseDateW 1000 (some (.str "zzz")) := by
  refine ⟨rfl, rfl, rfl, ?_⟩
  decide

/-- C6 as amended: the timestamp of the record converted from an object
event follows this rule — a truthy timestamp field parseable as a date is
converted to nanoseconds; an absent or falsy field yields the capture time
in nanoseconds; a truthy but unparseable field yields the literal string
`"NaN"`. -/
theorem c6_timestamp_amended (ctx : ConvCtx) (kvs : List (String × Json)) :
    ∃ rec, convertLog ctx (.obj kvs) = .ok rec ∧
      rec.timeUnixNano =
        timeUnixNanoAmendedC6 ctx.parseDate ctx.captureMs (lookupJson kvs "timestamp") := by
  refine ⟨_, rfl, ?_⟩
  show timeUnixNanoOf ctx.parseDate ctx.captureMs (lookupJson kvs "timestamp") =
    timeUnixNanoAmendedC6 ctx.parseDate ctx.captureMs (lookupJson kvs "timestamp")
  cases lookupJson kvs "timestamp" <;> rfl

/-- The resolved site is never the empty string, so the handler's
`extractDataDogSite(request) || 'us5.datadoghq.com'` default never fires. -/
lemma extractDataDogSite_ne_empty (p h : Option String) :
    extractDataDogSite p h ≠ "" := by
  unfold extractDataDogSite
  cases p with
  | none =>
    cases h with
    | none => decide
    | some s =>
      by_cases hs : s = "" <;> simp [hs]
  | some s =>
    by_cases hs : s = ""
    · cases h with
      | none => simp [hs]
      | some t =>
        by_cases ht : t = "" <;> simp [hs, ht]
    · simp [hs]

/-- C7 counterexample: a request with the `site` query parameter present
but empty (`?site=`) and a site header: the claim resolves the site to the
parameter's value `""` — absent from the lookup table, so it prescribes a
500 with no outbound call — while the code skips the empty parameter, uses
the header's valid site, and issues the primary request. -/
theorem c7_site_counterexample :
    extractDataDogSite (some "") (some "datadoghq.com") = "datadoghq.com" ∧
    extractSiteClaimC7 (some "") (some "datadoghq.com") = "" ∧
    ddIntakeOrigins "" = none ∧
    (handleDataDogProxy envPlain inpEmptySite ctxW behW).ddRequest =
      some (buildDDRequest "https://browser-intake-datadoghq.com" "/api/v2/logs" "body") :=
  ⟨rfl, rfl, rfl, rfl⟩

/-- C7 as amended: the site is resolved from the `site` query parameter if
present and non-empty, else the site header if present and non-empty, else
the fixed default; and whenever the resolved site is absent from the
origin table (and the request got past decoding and the kill switch), the
handler answers 500 with a descriptive message and attempts no outbound
call. -/
theorem c7_site_resolution_amended (p h : Option String) (env : WorkerEnv)
    (inp : HandlerInput) (ctx : ConvCtx) (beh : SinkBehavior) (d : String)
    (hdec : inp.decodedForward = some d)
    (hks : ¬ env.dd_forward_enabled = some "false")
    (hsite : ddIntakeOrigins (extractDataDogSite inp.siteParam inp.siteHeader) = none) :
    extractDataDogSite p h = extractSiteAmendedC7 p h ∧
    handleDataDogProxy env inp ctx beh =
      ⟨⟨500, "Unsupported DataDog site: " ++
          extractDataDogSite inp.siteParam inp.siteHeader, corsHeaders⟩,
        none, none⟩ := by
  constructor
  · unfold extractDataDogSite extractSiteAmendedC7
    cases p with
    | none =>
      cases h with
      | none => rfl
      | some t => by_cases ht : t = "" <;> simp [ht]
    | some s =>
      by_cases hs : s = ""
      · cases h with
        | none => simp [hs]
        | some t => by_cases ht : t = "" <;> simp [hs, ht]
      · simp [hs]
  · have hne := extractDataDogSite_ne_empty inp.siteParam inp.siteHeader
    unfold handleDataDogProxy
    rw [hdec]
    simp [hks, hne, hsite]

/-- C7 witness: a concrete request with an unresolvable site parameter gets
the 500 and no outbound call. -/
theorem c7_site_resolution_amended_witness :
    inpBadSite.decodedForward = some "/v1/input/abc" ∧
    (¬ envPlain.dd_forward_enabled = some "false") ∧
    ddIntakeOrigins (extractDataDogSite inpBadSite.siteParam inpBadSite.siteHeader) = none ∧
    extractDataDogSite (some "unknown.example.com") none = extractSiteAmendedC7 (some "unknown.example.com") none ∧
    handleDataDogProxy envPlain inpBadSite ctxW behW =
      ⟨⟨500, "Unsupported DataDog site: unknown.example.com", corsHeaders⟩, none, none⟩ := by
  have h := c7_site_resolution_amended (some "unknown.example.com") none envPlain
    inpBadSite ctxW behW "/v1/input/abc" rfl (by simp [envPlain]) rfl
  exact ⟨rfl, by simp [envPlain], rfl, h.1, h.2⟩

/-- C9 counterexample: the secondary sink's outcome on a completed call
captures neither a response body nor an error description, and its outcome
on a network throw (a call that never reached the network) carries no
status at all rather than status 0. -/
theorem c9_outcome_counterexample :
    (forwardToFiretiger ctxW "\x7b\x7d" (some (.obj [])) (.completed 202 "resp")).responseBody = none ∧
    (forwardToFiretiger ctxW "\x7b\x7d" (some (.obj [])) (.completed 202 "resp")).error = none ∧
    (forwardToFiretiger ctxW "\x7b\x7d" (some (.obj [])) (.threw "ECONNREFUSED")).status = none ∧
    (forwardToFiretiger ctxW "\x7b\x7d" (some (.obj [])) (.threw "ECONNREFUSED")).status ≠ some 0 := by
  refine ⟨rfl, rfl, rfl, ?_⟩
  decide

/-- C9 as amended: the primary Sink Outcome carries the destination
identifier, the success flag, a status that is 0 exactly when the call
threw, and a response body or an error description; the secondary Sink
Outcome carries the identifier, the flag and a format tag, has a status
only for completed calls (none, not 0, otherwise), an error description
exactly when it has no status, and never a captured response body. -/
theorem c9_outcome_shape_amended :
    (∀ net : NetResult,
      (ddFetchTask net).service = "datadog" ∧
      (ddFetchTask net).status.isSome = true ∧
      ((ddFetchTask net).responseBody.isSome = true ∨
        (ddFetchTask net).error.isSome = true) ∧
      (∀ m, net = .threw m → (ddFetchTask net).status = some 0)) ∧
    (∀ (ctx : ConvCtx) (raw : String) (parsed : Option Json) (net : NetResult),
      (forwardToFiretiger ctx raw parsed net).service = "firetiger" ∧
      (forwardToFiretiger ctx raw parsed net).format = some "otel-http" ∧
      (forwardToFiretiger ctx raw parsed net).responseBody = none ∧
      ((forwardToFiretiger ctx raw parsed net).status.isSome = true ∨
        (forwardToFiretiger ctx raw parsed net).error.isSome = true) ∧
      ((forwardToFiretiger ctx raw parsed net).status = none →
        (forwardToFiretiger ctx raw parsed net).error.isSome = true)) := by
  constructor
  · intro net
    cases net with
    | completed st b => exact ⟨rfl, rfl, Or.inl rfl, fun m h => by cases h⟩
    | threw m => exact ⟨rfl, rfl, Or.inr rfl, fun m h => rfl⟩
  · intro ctx raw parsed net
    unfold forwardToFiretiger
    cases convertDataDogToOTEL ctx raw parsed with
    | error e => exact ⟨rfl, rfl, rfl, Or.inr rfl, fun _ => rfl⟩
    | ok payload =>
      cases net with
      | completed st b => exact ⟨rfl, rfl, rfl, Or.inl rfl, fun h => by cases h⟩
      | threw m => exact ⟨rfl, rfl, rfl, Or.inr rfl, fun _ => rfl⟩

/-- C9 witness: the primary outcome of a thrown call at a concrete input
has status 0, service `datadog` and an error description. -/
theorem c9_outcome_shape_amended_witness :
    ((NetResult.threw "timeout") = .threw "timeout") ∧
    (ddFetchTask (.threw "timeout")).status = some 0 ∧
    (ddFetchTask (.threw "timeout")).service = "datadog" ∧
    ((ddFetchTask (.threw "timeout")).responseBody.isSome = true ∨
      (ddFetchTask (.threw "timeout")).error.isSome = true) :=
  ⟨rfl,
   (c9_outcome_shape_amended.1 (.threw "timeout")).2.2.2 "timeout" rfl,
   (c9_outcome_shape_amended.1 (.threw "timeout")).1,
   (c9_outcome_shape_amended.1 (.threw "timeout")).2.2.1⟩

/-- C10: a non-OPTIONS, non-`/health` request without a POST-usable
`ddforward` parameter whose path starts with `/api/v2/` or `/v1/input/` is
routed to proxy handling whatever its method, and the primary outbound
request the proxy handler issues always uses method POST. -/
theorem c10_routing_and_post :
    (∀ (m p : String) (dd : Option String) (s : String),
      m ≠ "OPTIONS" → p ≠ "/health" →
      ¬(jsStrTruthy dd = true ∧ m = "POST") →
      (strStartsWith p "/api/v2/" = true ∨ strStartsWith p "/v1/input/" = true) →
      routeRequest m p dd s = .proxy (p ++ s)) ∧
    (∀ (env : WorkerEnv) (inp : HandlerInput) (ctx : ConvCtx) (beh : SinkBehavior)
        (req : OutboundRequest),
      (handleDataDogProxy env inp ctx beh).ddRequest = some req →
      req.method = "POST") := by
  constructor
  · intro m p dd s hm hp hdd hpath
    have hcond : (jsStrTruthy dd && (m == "POST")) = false := by
      rcases h1 : jsStrTruthy dd with _ | _
      · rfl
      · rcases h2 : (m == "POST") with _ | _
        · rfl
        · exact absurd ⟨h1, by simpa using h2⟩ hdd
    have hpath' : (strStartsWith p "/api/v2/" || strStartsWith p "/v1/input/") = true := by
      rcases hpath with h | h <;> simp [h]
    simp [routeRequest, hm, hp, hcond, hpath']
  · intro env inp ctx beh req hreq
    unfold handleDataDogProxy at hreq
    cases hdec : inp.decodedForward with
    | none => rw [hdec] at hreq; cases hreq
    | some d =>
      rw [hdec] at hreq
      by_cases hk : env.dd_forward_enabled = some "false"
      · simp [hk] at hreq
      · simp only [hk, if_false] at hreq
        revert hreq
        cases ddIntakeOrigins
            (if extractDataDogSite inp.siteParam inp.siteHeader = ""
             then "us5.datadoghq.com"
             else extractDataDogSite inp.siteParam inp.siteHeader) with
        | none => intro hreq; cases hreq
        | some origin =>
          intro hreq
          have : buildDDRequest origin d inp.reqBody = req := by
            simpa using hreq
          rw [← this]
          rfl

/-- C10 witness: a concrete GET request on a legacy path routes to the
proxy, and the primary request issued for a concrete proxy request has
method POST. -/
theorem c10_routing_and_post_witness :
    (("GET" : String) ≠ "OPTIONS") ∧
    (("/api/v2/logs" : String) ≠ "/health") ∧
    ¬(jsStrTruthy none = true ∧ ("GET" : String) = "POST") ∧
    (strStartsWith "/api/v2/logs" "/api/v2/" = true) ∧
    routeRequest "GET" "/api/v2/logs" none "?a=1" = .proxy "/api/v2/logs?a=1" ∧
    (handleDataDogProxy envPlain inpGood ctxW behW).ddRequest =
      some (buildDDRequest "https://browser-intake-us5-datadoghq.com"
        "/api/v2/logs?ddsource=browser" "body") ∧
    (buildDDRequest "https://browser-intake-us5-datadoghq.com"
      "/api/v2/logs?ddsource=browser" "body").method = "POST" :=
  ⟨by decide, by decide, by simp, by decide,
   c10_routing_and_post.1 "GET" "/api/v2/logs" none "?a=1"
     (by decide) (by decide) (by simp) (Or.inl (by decide)),
   rfl,
   c10_routing_and_post.2 envPlain inpGood ctxW behW
     (buildDDRequest "https://browser-intake-us5-datadoghq.com"
       "/api/v2/logs?ddsource=browser" "body") rfl⟩

end DDProxy
